import Mathlib

/-!
Verification of the Campfire authentication core (`src/app/auth` and
`src/app/core/security.py`) against its natural-language specification.

The embedding follows the Python source closely:

* `PendingOTP` / `UserSession` / `AppUser` mirror the SQLAlchemy models
  (`pending_otp_model.py`, `user_session_model.py`, `user_model.py`);
  timestamps are natural numbers, Python `int` columns are `Int`.
* Repository methods become pure functions on lists of rows; a committed
  mutation is the returned list.  `scalar_one_or_none` is modelled
  faithfully, including the `MultipleResultsFound` exception it raises
  when the query matches two or more rows.
* Fallible Python code returns `Except`/result inductives.  The
  `NameError` that `PendingOTPRepository.verify_and_consume_otp` raises
  on its failure branches (the commit callback reads the local variable
  `success`, which is only ever assigned on the hash-match branch) is
  modelled explicitly as `PyError.nameErrorSuccess`.
* External collaborators are parameters: `sha` stands for SHA-256 hex
  digesting, `pyInt` for Python `int(...)` parsing of the JWT `sub`
  claim, and JWT decoding results are passed in as `Except` values.
-/

namespace Campfire

/-! ## Data model (src/app/auth/models, src/app/users/models) -/

/-- `OTPStatus` from `src/app/auth/enums/otp_status.py`. -/
inductive OTPStatus where
  | pending
  | verified
  | expired
  | max_attempts
  | error_sending
deriving DecidableEq, Repr

/-- A row of the `PendingOTP` table (`src/app/auth/models/pending_otp_model.py`). -/
structure PendingOTP where
  id : Nat
  phone_number : String
  hashed_otp : String
  status : OTPStatus
  attempts_left : Int
  expires_at : Nat
  created_at : Nat
deriving DecidableEq, Repr

/-- OTP-store state: the `pending_otps` table plus the primary-key sequence. -/
structure OtpState where
  otps : List PendingOTP
  nextId : Nat
deriving DecidableEq, Repr

/-- A row of the `UserSession` table (`src/app/auth/models/user_session_model.py`). -/
structure UserSession where
  id : Nat
  user_id : Int
  refresh_token_jti : String
  is_active : Bool
  user_agent : Option String
  ip_address : Option String
  expires_at : Nat
  created_at : Nat
deriving DecidableEq, Repr

/-- Session-store state: the `user_sessions` table plus the primary-key sequence. -/
structure SessionState where
  sessions : List UserSession
  nextId : Nat
deriving DecidableEq, Repr

/-- The slice of the `User` model the auth flows read
(`src/app/users/models/user_model.py`). -/
structure AppUser where
  id : Int
  phone_number : String
  is_active : Bool
  is_profile_complete : Bool
deriving DecidableEq, Repr

/-- Python exceptions that the modelled code can raise. -/
inductive PyError where
  /-- `sqlalchemy.exc.MultipleResultsFound`, raised by `scalar_one_or_none`. -/
  | multipleResultsFound
  /-- The `NameError` raised when `_success_log_callback` in
  `verify_and_consume_otp` reads the unassigned local `success`. -/
  | nameErrorSuccess
  /-- `sqlalchemy.exc.NoResultFound`, raised by `BaseRepository.get`. -/
  | noResultFound
deriving DecidableEq, Repr

/-! ## OTP hashing (src/app/core/security.py) -/

/-- `OTPConfigurationError` from `src/app/core/security.py`. -/
inductive OTPConfigurationError where
  | saltNotConfigured
deriving DecidableEq, Repr

/-- `hash_otp_value` (security.py lines 121-129): raises
`OTPConfigurationError` when `settings.OTP_HASH_SALT` is missing or falsy
(empty string); otherwise returns the SHA-256 hex digest of salt ++ otp.
`sha` stands for the external `hashlib.sha256(...).hexdigest()`. -/
def hash_otp_value (sha : String → String) (salt : String) (otp : String) :
    Except OTPConfigurationError String :=
  if salt = "" then
    .error .saltNotConfigured
  else
    .ok (sha (salt ++ otp))

/-- `verify_otp_value` (security.py lines 132-149): total; hashes the
plain OTP and compares with `hmac.compare_digest`; any
`OTPConfigurationError` (or other exception) yields `false`, never a
raise. -/
def verify_otp_value (sha : String → String) (salt : String)
    (plain_otp : String) (hashed_otp_from_storage : String) : Bool :=
  match hash_otp_value sha salt plain_otp with
  | .ok newly_hashed => newly_hashed == hashed_otp_from_storage
  | .error _ => false

/-! ## Generic SQLAlchemy result shapes -/

/-- `Result.scalar_one_or_none()`: `none` on zero rows, the row on exactly
one, and raises `MultipleResultsFound` on two or more. -/
def scalar_one_or_none {α : Type} (rows : List α) : Except PyError (Option α) :=
  match rows with
  | [] => .ok none
  | [a] => .ok (some a)
  | _ => .error .multipleResultsFound

/-! ## OTP repository (src/app/auth/repositories/pending_otps_repository.py) -/

/-- The WHERE clause of `get_active_pending_otp_by_phone`:
`phone_number == phone AND status == PENDING AND expires_at > now AND
attempts_left > 0`. -/
def isActiveOtp (now : Nat) (phone : String) (r : PendingOTP) : Bool :=
  r.phone_number == phone && r.status == OTPStatus.pending
    && decide (now < r.expires_at) && decide ((0 : Int) < r.attempts_left)

/-- `get_active_pending_otp_by_phone` (lines 102-140): select rows
matching the active predicate, then `scalar_one_or_none`. -/
def get_active_pending_otp_by_phone (now : Nat) (phone : String)
    (otps : List PendingOTP) : Except PyError (Option PendingOTP) :=
  scalar_one_or_none (otps.filter (isActiveOtp now phone))

/-- The committed effect of mutating the ORM row with primary key `i`:
every row carrying that id is replaced by the updated row. -/
def updateOtpById (otps : List PendingOTP) (i : Nat) (r' : PendingOTP) :
    List PendingOTP :=
  otps.map fun x => if x.id = i then r' else x

/-- Messages built from `PendingOTPRepoMessages`
(`src/app/auth/constants/repository_outcomes.py`). -/
inductive RepoMsg where
  | verifyNoActive
  | expiredDuringVerification
  | maxAttemptsReached
  | invalidAttempt (attempts_left : Int)
  | successfullyVerified
deriving DecidableEq, Repr

/-- Outcome of `verify_and_consume_otp`: either the Python return value
`(success, record, message)` or a raised exception. -/
inductive VerifyResult where
  | ok (success : Bool) (record : Option PendingOTP) (message : RepoMsg)
  | raised (e : PyError)
deriving DecidableEq, Repr

/-- `verify_and_consume_otp` (lines 188-277).  Branch structure follows the
source: no active row → early failure return; expired → mark EXPIRED,
attempts 0; hash mismatch → decrement, possibly MAX_ATTEMPTS; match →
VERIFIED, attempts 0.  On every branch except the early return and the
hash-match branch, the commit callback reads the local `success` before it
is assigned, so after committing the row mutation the call raises
`NameError` instead of returning the failure tuple. -/
def verify_and_consume_otp (sha : String → String) (salt : String)
    (now : Nat) (phone submitted_otp : String) (otps : List PendingOTP) :
    VerifyResult × List PendingOTP :=
  match get_active_pending_otp_by_phone now phone otps with
  | .error e => (.raised e, otps)
  | .ok none => (.ok false none RepoMsg.verifyNoActive, otps)
  | .ok (some active_otp) =>
    if active_otp.expires_at ≤ now then
      let r' := { active_otp with status := OTPStatus.expired, attempts_left := 0 }
      (.raised .nameErrorSuccess, updateOtpById otps active_otp.id r')
    else if ¬ verify_otp_value sha salt submitted_otp active_otp.hashed_otp then
      let n := active_otp.attempts_left - 1
      if n ≤ 0 then
        let r' := { active_otp with status := OTPStatus.max_attempts, attempts_left := n }
        (.raised .nameErrorSuccess, updateOtpById otps active_otp.id r')
      else
        let r' := { active_otp with attempts_left := n }
        (.raised .nameErrorSuccess, updateOtpById otps active_otp.id r')
    else
      let r' := { active_otp with status := OTPStatus.verified, attempts_left := 0 }
      (.ok true (some r') RepoMsg.successfullyVerified, updateOtpById otps active_otp.id r')

/-- `invalidate_existing_pending_otps` (lines 279-317): one UPDATE marking
every PENDING row of the phone as EXPIRED with `attempts_left = 0`;
returns the row count. -/
def invalidate_existing_pending_otps (phone : String) (otps : List PendingOTP) :
    Nat × List PendingOTP :=
  ((otps.filter fun r => r.phone_number == phone && r.status == OTPStatus.pending).length,
   otps.map fun r =>
     if r.phone_number == phone && r.status == OTPStatus.pending then
       { r with status := OTPStatus.expired, attempts_left := 0 }
     else r)

/-- `create_pending_otp` (lines 52-99): hash the OTP (may raise
`OTPConfigurationError`), then insert a PENDING row with
`expires_at = now + ttl` and `attempts_left = max_attempts`. -/
def create_pending_otp (sha : String → String) (salt : String)
    (now ttl maxAttempts : Nat) (phone plain_otp : String) (s : OtpState) :
    Except OTPConfigurationError (PendingOTP × OtpState) :=
  match hash_otp_value sha salt plain_otp with
  | .error e => .error e
  | .ok hashed =>
    let row : PendingOTP :=
      { id := s.nextId
        phone_number := phone
        hashed_otp := hashed
        status := OTPStatus.pending
        attempts_left := (maxAttempts : Int)
        expires_at := now + ttl
        created_at := now }
    .ok (row, { otps := s.otps ++ [row], nextId := s.nextId + 1 })

/-- `set_otp_sending_error` (lines 357-383): if the row exists, mark it
ERROR_SENDING with `attempts_left = 0`. -/
def set_otp_sending_error (otpId : Nat) (otps : List PendingOTP) :
    List PendingOTP :=
  match otps.find? (fun r => r.id = otpId) with
  | none => otps
  | some r =>
    updateOtpById otps otpId
      { r with status := OTPStatus.error_sending, attempts_left := 0 }

/-! ## send_otp orchestration (src/app/auth/services/auth_service.py lines 52-137) -/

/-- Behaviour of the external `sms_service.send_sms` call. -/
inductive SmsBehavior where
  | raisesException
  | returnsFalse
  | returnsTrue
deriving DecidableEq, Repr

/-- Outcome of `AuthService.send_otp`. -/
inductive SendResult where
  | okDebug (debug_otp : String)
  | okSent
  | httpError (code : Nat)
deriving DecidableEq, Repr

/-- `AuthService.send_otp`: invalidate existing pending OTPs, create the
new hashed row (`create_pending_otp` failures are caught and translated to
HTTP 500), short-circuit in dev/debug mode, otherwise send the SMS; on a
transport exception mark ERROR_SENDING and raise 503, on an unsuccessful
send mark ERROR_SENDING and raise 500. -/
def send_otp (sha : String → String) (salt : String)
    (now ttl maxAttempts : Nat) (debugMode : Bool)
    (phone plaintext_otp : String) (sms : SmsBehavior) (s : OtpState) :
    SendResult × OtpState :=
  match create_pending_otp sha salt now ttl maxAttempts phone plaintext_otp
      { s with otps := (invalidate_existing_pending_otps phone s.otps).2 } with
  | .error _ =>
    (.httpError 500, { s with otps := (invalidate_existing_pending_otps phone s.otps).2 })
  | .ok (row, s2) =>
    if debugMode then
      (.okDebug plaintext_otp, s2)
    else
      match sms with
      | .raisesException =>
        (.httpError 503, { s2 with otps := set_otp_sending_error row.id s2.otps })
      | .returnsFalse =>
        (.httpError 500, { s2 with otps := set_otp_sending_error row.id s2.otps })
      | .returnsTrue => (.okSent, s2)

/-! ## Operation sequences over the OTP store (claim C1) -/

/-- The operations quantified over in the single-active-OTP invariant:
`send_otp` (with its settings and transport behaviour) and
`verify_and_consume_otp`, each at its own call instant. -/
inductive AuthOp where
  | send (now ttl maxAttempts : Nat) (debugMode : Bool)
      (phone otp : String) (sms : SmsBehavior)
  | verify (now : Nat) (phone code : String)
deriving DecidableEq, Repr

/-- State effect of one operation. -/
def applyOp (sha : String → String) (salt : String) (s : OtpState)
    (op : AuthOp) : OtpState :=
  match op with
  | .send now ttl maxAttempts debugMode phone otp sms =>
    (send_otp sha salt now ttl maxAttempts debugMode phone otp sms s).2
  | .verify now phone code =>
    { s with otps := (verify_and_consume_otp sha salt now phone code s.otps).2 }

/-- State effect of a sequence of operations. -/
def applyOps (sha : String → String) (salt : String) (ops : List AuthOp)
    (s : OtpState) : OtpState :=
  ops.foldl (applyOp sha salt) s

/-- The spec invariant: for every instant and phone number, at most one
PendingOTP row is active (PENDING, unexpired, attempts_left > 0). -/
def OtpInvariant (s : OtpState) : Prop :=
  ∀ now phone, (s.otps.filter (isActiveOtp now phone)).length ≤ 1

/-- Well-formedness the database guarantees: `id` is a primary key
(pairwise distinct) and the sequence value is fresh. -/
def OtpIdsOk (s : OtpState) : Prop :=
  (s.otps.map (·.id)).Nodup ∧ ∀ r ∈ s.otps, r.id < s.nextId

/-! ## Session repository (src/app/auth/repositories/user_sessions_repository.py) -/

/-- The WHERE clause of `get_active_session_by_jti_and_user`:
`refresh_token_jti == jti AND user_id == uid AND is_active AND
expires_at > now`. -/
def matchesActiveSession (now : Nat) (jti : String) (uid : Int)
    (s : UserSession) : Bool :=
  s.refresh_token_jti == jti && s.user_id == uid && s.is_active
    && decide (now < s.expires_at)

/-- `get_active_session_by_jti_and_user` (lines 159-203). -/
def get_active_session_by_jti_and_user (now : Nat) (jti : String) (uid : Int)
    (sessions : List UserSession) : Except PyError (Option UserSession) :=
  scalar_one_or_none (sessions.filter (matchesActiveSession now jti uid))

/-- `get_session_by_jti` (lines 125-157): unscoped lookup by JTI. -/
def get_session_by_jti (jti : String) (sessions : List UserSession) :
    Except PyError (Option UserSession) :=
  scalar_one_or_none (sessions.filter (·.refresh_token_jti == jti))

/-- The committed effect of mutating the ORM session row with primary key
`i`. -/
def updateSessionById (sessions : List UserSession) (i : Nat)
    (s' : UserSession) : List UserSession :=
  sessions.map fun x => if x.id = i then s' else x

/-- `invalidate_session` (lines 205-240): sets `is_active = False` and
`expires_at = now`, commits; returns the updated row. -/
def invalidate_session (now : Nat) (sess : UserSession)
    (sessions : List UserSession) : UserSession × List UserSession :=
  let s' := { sess with is_active := false, expires_at := now }
  (s', updateSessionById sessions sess.id s')

/-- `create_user_session` (lines 80-123): inserts a new row with
`is_active = True`. -/
def create_user_session (now : Nat) (uid : Int) (jti : String)
    (user_agent ip_address : Option String) (expires_at : Nat)
    (st : SessionState) : UserSession × SessionState :=
  let row : UserSession :=
    { id := st.nextId
      user_id := uid
      refresh_token_jti := jti
      is_active := true
      user_agent := user_agent
      ip_address := ip_address
      expires_at := expires_at
      created_at := now }
  (row, { sessions := st.sessions ++ [row], nextId := st.nextId + 1 })

/-- `invalidate_session_by_jti` (lines 242-268): unscoped lookup by JTI;
absent → `none`; already inactive → returned unchanged (no-op); active →
invalidated.  Raises only if the JTI lookup itself raises. -/
def invalidate_session_by_jti (now : Nat) (jti : String)
    (sessions : List UserSession) :
    Except PyError (Option UserSession) × List UserSession :=
  match get_session_by_jti jti sessions with
  | .error e => (.error e, sessions)
  | .ok none => (.ok none, sessions)
  | .ok (some sess) =>
    if sess.is_active = false then
      (.ok (some sess), sessions)
    else
      let (s', sessions') := invalidate_session now sess sessions
      (.ok (some s'), sessions')

/-! ## Token flows (src/app/auth/services/auth_service.py) -/

/-- The decoded claim set of a refresh token (`jose.jwt.decode` payload):
`sub` and `jti` may be absent, `exp` is carried for stating expiry. -/
structure JwtClaims where
  sub : Option String
  jti : Option String
  exp : Option Nat
deriving DecidableEq, Repr

/-- `jose.JWTError`: signature mismatch, expired (when expiry is
enforced), or malformed payload. -/
inductive JwtError where
  | decodeFailed
deriving DecidableEq, Repr

/-- `HTTPException.detail` values from `AuthHttpErrorDetails` used by the
refresh and logout flows. -/
inductive HttpDetail where
  | refreshTokenInvalid
  | refreshTokenInvalidOrExpired
  | sessionNotFoundOrRevoked
  | userInactiveOrNotFound
  | logoutForbiddenOtherUser
deriving DecidableEq, Repr

/-- The `Token` response schema (`src/app/auth/schemas/token_schema.py`). -/
structure Token where
  access_token : String
  refresh_token : String
  is_new_user : Bool
deriving DecidableEq, Repr

/-- Outcome of `AuthService.refresh_access_token`. -/
inductive RefreshResult where
  | ok (t : Token)
  | httpError (code : Nat) (detail : HttpDetail)
  | raised (e : PyError)
deriving DecidableEq, Repr

/-- `AuthService.refresh_access_token` (lines 266-433).  `dec` is the
result of `jwt.decode(refresh_token_str, REFRESH_TOKEN_SECRET_KEY,
verify_exp=True)`; `pyInt` models Python `int(...)` on the `sub` claim;
`newAccessToken`, `newRefreshToken` and `newJti` are the outputs of the
token issuer (`security.create_access_token` /
`create_refresh_token_with_jti`, whose JTI comes from `uuid4`); `ttl` is
the refresh-token lifetime.  A missing user on the session's `user_id`
raises `NoResultFound` (`BaseRepository.get`). -/
def refresh_access_token (pyInt : String → Option Int) (rotate : Bool)
    (now ttl : Nat) (dec : Except JwtError JwtClaims)
    (refresh_token_str : String)
    (newAccessToken newRefreshToken newJti : String)
    (user_agent ip_address : Option String)
    (users : List AppUser) (st : SessionState) :
    RefreshResult × SessionState :=
  match dec with
  | .error _ => (.httpError 401 .refreshTokenInvalidOrExpired, st)
  | .ok claims =>
    match claims.sub, claims.jti with
    | none, _ => (.httpError 401 .refreshTokenInvalid, st)
    | some _, none => (.httpError 401 .refreshTokenInvalid, st)
    | some subStr, some jti =>
      match pyInt subStr with
      | none => (.httpError 401 .refreshTokenInvalid, st)
      | some user_id =>
        match get_active_session_by_jti_and_user now jti user_id st.sessions with
        | .error e => (.raised e, st)
        | .ok none => (.httpError 401 .sessionNotFoundOrRevoked, st)
        | .ok (some user_session) =>
          match users.find? (fun u => u.id == user_session.user_id) with
          | none => (.raised .noResultFound, st)
          | some user_from_db =>
            if user_from_db.is_active = false then
              let (_, sessions') := invalidate_session now user_session st.sessions
              (.httpError 401 .userInactiveOrNotFound, { st with sessions := sessions' })
            else if rotate then
              let (_, sessions1) := invalidate_session now user_session st.sessions
              let st1 : SessionState := { st with sessions := sessions1 }
              let (_, st2) :=
                create_user_session now user_from_db.id newJti user_agent
                  ip_address (now + ttl) st1
              (.ok { access_token := newAccessToken
                     refresh_token := newRefreshToken
                     is_new_user := !user_from_db.is_profile_complete }, st2)
            else
              (.ok { access_token := newAccessToken
                     refresh_token := refresh_token_str
                     is_new_user := !user_from_db.is_profile_complete }, st)

/-- The session-store states visited by the rotation branch of
`refresh_access_token`, in source order: before the branch, after
`invalidate_session` (line 392), after `create_user_session` (line 404). -/
def rotationStates (now ttl : Nat) (newJti : String)
    (user_agent ip_address : Option String) (user_session : UserSession)
    (user_from_db : AppUser) (st : SessionState) : List SessionState :=
  let (_, sessions1) := invalidate_session now user_session st.sessions
  let st1 : SessionState := { st with sessions := sessions1 }
  let (_, st2) :=
    create_user_session now user_from_db.id newJti user_agent ip_address
      (now + ttl) st1
  [st, st1, st2]

/-- Outcome of `AuthService.logout_user` (returns `None` on success). -/
inductive LogoutResult where
  | ok
  | httpError (code : Nat) (detail : HttpDetail)
  | raised (e : PyError)
deriving DecidableEq, Repr

/-- `AuthService.logout_user` (lines 435-543).  `dec` is the result of
`jwt.decode(..., verify_exp=False)` — expiry is deliberately not enforced.
`JWTError` → silent success; missing or empty `jti` or `sub` (line 465
tests Python truthiness, so `None` and `""` are both malformed) → silent
success; non-integer `sub` (`ValueError`) → silent success; `sub`
differing from the authenticated caller → HTTP 403 before any store call;
otherwise best-effort `invalidate_session_by_jti` and success. -/
def logout_user (pyInt : String → Option Int) (now : Nat)
    (current_user_id : Int) (dec : Except JwtError JwtClaims)
    (st : SessionState) : LogoutResult × SessionState :=
  match dec with
  | .error _ => (.ok, st)
  | .ok claims =>
    match claims.jti, claims.sub with
    | none, _ => (.ok, st)
    | some _, none => (.ok, st)
    | some jti, some subStr =>
      -- line 465: `if not jti_from_token or not user_id_from_logout_token_str`
      -- — Python truthiness, so a present-but-empty string is also malformed
      if jti = "" ∨ subStr = "" then (.ok, st)
      else
        match pyInt subStr with
        | none => (.ok, st)
        | some user_id_from_logout_token =>
          if current_user_id ≠ user_id_from_logout_token then
            (.httpError 403 .logoutForbiddenOtherUser, st)
          else
            match invalidate_session_by_jti now jti st.sessions with
            | (.error e, sessions') => (.raised e, { st with sessions := sessions' })
            | (.ok _, sessions') => (.ok, { st with sessions := sessions' })

/-! ## Exception propagation through the orchestrator (claim C8) -/

/-- An I/O failure raised by a store, transport or issuer call. -/
inductive StoreErr where
  | ioFailure (code : Nat)
deriving DecidableEq, Repr

/-- What reaches the HTTP boundary from an orchestrator call. -/
inductive HttpOutcome where
  | success
  | httpError (code : Nat)
  | uncaught (e : StoreErr)
deriving DecidableEq, Repr

/-- Exception flow of `AuthService.send_otp` (lines 52-137), with each
store/transport call abstracted by its result.
`invalidate_existing_pending_otps` (line 53) is called outside every
`try` block, so its exceptions propagate uncaught; `create_pending_otp`
failures are caught and translated to HTTP 500 (lines 69-82); an SMS
transport exception is translated to HTTP 503 and an unsuccessful send to
HTTP 500 (lines 105-131), unless the `set_otp_sending_error` call inside
the handler itself raises. -/
def send_otp_outcome (inv : Except StoreErr Nat)
    (create : Except StoreErr Nat) (debugMode : Bool)
    (sms : Except StoreErr Bool) (setErr : Except StoreErr Unit) :
    HttpOutcome :=
  match inv with
  | .error e => .uncaught e
  | .ok _ =>
    match create with
    | .error _ => .httpError 500
    | .ok _ =>
      if debugMode then .success
      else
        match sms with
        | .error _ =>
          match setErr with
          | .error e => .uncaught e
          | .ok _ => .httpError 503
        | .ok false =>
          match setErr with
          | .error e => .uncaught e
          | .ok _ => .httpError 500
        | .ok true => .success

/-- A session is usable at instant `t`: `is_active` and not yet expired. -/
def sessionActiveAt (t : Nat) (s : UserSession) : Bool :=
  s.is_active && decide (t < s.expires_at)

/-- Some session row with primary key `i` is usable at instant `t`. -/
def existsActiveSessionWithId (t : Nat) (i : Nat) (st : SessionState) : Prop :=
  ∃ x ∈ st.sessions, x.id = i ∧ sessionActiveAt t x = true

/-- Some session row carrying `jti` is usable at instant `t`. -/
def existsActiveSessionWithJti (t : Nat) (jti : String) (st : SessionState) :
    Prop :=
  ∃ x ∈ st.sessions, x.refresh_token_jti = jti ∧ sessionActiveAt t x = true

/-! ## Helper lemmas -/

theorem scalar_one_or_none_eq_ok_none {α : Type} {l : List α} :
    scalar_one_or_none l = .ok none ↔ l = [] := by
  rcases l with _ | ⟨a, _ | ⟨b, t⟩⟩ <;> simp [scalar_one_or_none]

theorem scalar_one_or_none_eq_ok_some {α : Type} {l : List α} {a : α} :
    scalar_one_or_none l = .ok (some a) ↔ l = [a] := by
  rcases l with _ | ⟨x, _ | ⟨y, t⟩⟩ <;> simp [scalar_one_or_none]

theorem scalar_one_or_none_eq_error {α : Type} {l : List α} {e : PyError} :
    scalar_one_or_none l = .error e ↔
      2 ≤ l.length ∧ e = .multipleResultsFound := by
  rcases l with _ | ⟨x, _ | ⟨y, t⟩⟩ <;>
    simp [scalar_one_or_none, eq_comm, Nat.succ_le_succ_iff]

/-- If `f` never turns a filtered-out element into a filtered-in one, the
filtered image is no longer than the filtered original. -/
theorem length_filter_map_le {α : Type} (l : List α) (f : α → α)
    (p : α → Bool) (h : ∀ x ∈ l, p (f x) = true → p x = true) :
    ((l.map f).filter p).length ≤ (l.filter p).length := by
  induction l with
  | nil => simp
  | cons a t ih =>
    have ha := h a (by simp)
    have iht := ih fun x hx hpx => h x (List.mem_cons_of_mem a hx) hpx
    simp only [List.map_cons, List.filter_cons]
    cases hpf : p (f a) with
    | true =>
      rw [ha hpf]
      simpa using iht
    | false =>
      cases hpa : p a <;> simp <;> omega

/-- Two rows of a table with `Nodup` ids and the same id are equal. -/
theorem eq_of_id_eq {α : Type} {key : α → Nat} {l : List α} {x y : α}
    (hnd : (l.map key).Nodup) (hx : x ∈ l) (hy : y ∈ l)
    (h : key x = key y) : x = y :=
  List.inj_on_of_nodup_map hnd hx hy h

theorem isActiveOtp_iff {now : Nat} {phone : String} {r : PendingOTP} :
    isActiveOtp now phone r = true ↔
      r.phone_number = phone ∧ r.status = OTPStatus.pending ∧
        now < r.expires_at ∧ 0 < r.attempts_left := by
  simp [isActiveOtp, and_assoc]

theorem matchesActiveSession_iff {now : Nat} {jti : String} {uid : Int}
    {s : UserSession} :
    matchesActiveSession now jti uid s = true ↔
      s.refresh_token_jti = jti ∧ s.user_id = uid ∧ s.is_active = true ∧
        now < s.expires_at := by
  simp [matchesActiveSession, and_assoc]

/-- After `invalidate_existing_pending_otps phone`, no row of `phone` is
active at any instant. -/
theorem not_active_after_invalidate (phone : String) (now : Nat)
    (otps : List PendingOTP) :
    ∀ r ∈ (invalidate_existing_pending_otps phone otps).2,
      isActiveOtp now phone r = false := by
  intro r hr
  simp only [invalidate_existing_pending_otps, List.mem_map] at hr
  obtain ⟨x, -, hx⟩ := hr
  subst hx
  cases hcond : (x.phone_number == phone && x.status == OTPStatus.pending) with
  | false => simp [isActiveOtp, hcond]
  | true => simp [isActiveOtp, hcond]

/-- Rows not belonging to `phone` are untouched by
`invalidate_existing_pending_otps phone`: the invalidation map can only
deactivate. -/
theorem invalidate_pointwise (phone : String) (now : Nat) (p : String)
    (x : PendingOTP) :
    isActiveOtp now p
        (if x.phone_number == phone && x.status == OTPStatus.pending then
          { x with status := OTPStatus.expired, attempts_left := 0 }
        else x) = true →
      isActiveOtp now p x = true := by
  cases hcond : (x.phone_number == phone && x.status == OTPStatus.pending) with
  | false => simp [hcond]
  | true => simp [hcond, isActiveOtp]

/-- An id-preserving row mutation keeps the id column intact. -/
theorem map_id_col {f : PendingOTP → PendingOTP} {l : List PendingOTP}
    (h : ∀ x ∈ l, (f x).id = x.id) :
    (l.map f).map (·.id) = l.map (·.id) := by
  rw [List.map_map]
  exact List.map_congr_left fun x hx => h x hx

/-- Replacing the unique row `r` (ids `Nodup`) by a row `r'` that is
active only where `r` was cannot increase the number of active rows. -/
theorem updateOtpById_filter_le {otps : List PendingOTP} {r r' : PendingOTP}
    (hnd : (otps.map (·.id)).Nodup) (hrmem : r ∈ otps)
    (himpl : ∀ now' p, isActiveOtp now' p r' = true → isActiveOtp now' p r = true)
    (now' : Nat) (p : String) :
    ((updateOtpById otps r.id r').filter (isActiveOtp now' p)).length ≤
      (otps.filter (isActiveOtp now' p)).length := by
  apply length_filter_map_le
  intro x hx hfx
  by_cases hid : x.id = r.id
  · have hxr : x = r := eq_of_id_eq hnd hx hrmem hid
    rw [if_pos hid] at hfx
    rw [hxr]
    exact himpl now' p hfx
  · rwa [if_neg hid] at hfx

/-- `verify_and_consume_otp` never increases the number of active rows,
for any phone and at any instant. -/
theorem verify_filter_le (sha : String → String) (salt : String)
    (now : Nat) (phone code : String) (otps : List PendingOTP)
    (hnd : (otps.map (·.id)).Nodup) (now' : Nat) (p : String) :
    (((verify_and_consume_otp sha salt now phone code otps).2).filter
        (isActiveOtp now' p)).length ≤
      (otps.filter (isActiveOtp now' p)).length := by
  cases hg : get_active_pending_otp_by_phone now phone otps with
  | error e => simp [verify_and_consume_otp, hg]
  | ok o =>
    cases o with
    | none => simp [verify_and_consume_otp, hg]
    | some r =>
      have hr : otps.filter (isActiveOtp now phone) = [r] := by
        simpa [get_active_pending_otp_by_phone,
          scalar_one_or_none_eq_ok_some] using hg
      have hrmem : r ∈ otps :=
        (List.mem_filter.mp (hr ▸ List.mem_singleton_self r)).1
      simp only [verify_and_consume_otp, hg]
      split
      · exact updateOtpById_filter_le hnd hrmem
          (fun n q h => by simp [isActiveOtp] at h) now' p
      · split
        · split
          · exact updateOtpById_filter_le hnd hrmem
              (fun n q h => by simp [isActiveOtp] at h) now' p
          · refine updateOtpById_filter_le hnd hrmem (fun n q h => ?_) now' p
            rw [isActiveOtp_iff] at h ⊢
            obtain ⟨h1, h2, h3, h4⟩ := h
            exact ⟨h1, h2, h3, by omega⟩
        · exact updateOtpById_filter_le hnd hrmem
            (fun n q h => by simp [isActiveOtp] at h) now' p

/-- `verify_and_consume_otp` keeps the id column intact. -/
theorem verify_id_col (sha : String → String) (salt : String)
    (now : Nat) (phone code : String) (otps : List PendingOTP) :
    ((verify_and_consume_otp sha salt now phone code otps).2).map (·.id) =
      otps.map (·.id) := by
  cases hg : get_active_pending_otp_by_phone now phone otps with
  | error e => simp [verify_and_consume_otp, hg]
  | ok o =>
    cases o with
    | none => simp [verify_and_consume_otp, hg]
    | some r =>
      simp only [verify_and_consume_otp, hg]
      split
      · exact map_id_col fun x _ => by split <;> simp_all
      · split
        · split <;> exact map_id_col fun x _ => by split <;> simp_all
        · exact map_id_col fun x _ => by split <;> simp_all

/-- `set_otp_sending_error` deactivates (or leaves) rows, and keeps ids. -/
theorem set_sending_error_filter_le (otpId : Nat) (otps : List PendingOTP)
    (now' : Nat) (p : String) :
    ((set_otp_sending_error otpId otps).filter (isActiveOtp now' p)).length ≤
      (otps.filter (isActiveOtp now' p)).length := by
  unfold set_otp_sending_error
  cases hf : otps.find? (fun r => r.id = otpId) with
  | none => simp
  | some r =>
    apply length_filter_map_le
    intro x hx hfx
    split at hfx
    · simp [isActiveOtp] at hfx
    · exact hfx

theorem set_sending_error_id_col (otpId : Nat) (otps : List PendingOTP) :
    (set_otp_sending_error otpId otps).map (·.id) = otps.map (·.id) := by
  unfold set_otp_sending_error
  cases hf : otps.find? (fun r => r.id = otpId) with
  | none => rfl
  | some r =>
    have hrid : r.id = otpId := by
      have := List.find?_some hf
      simpa using this
    exact map_id_col fun x _ => by split <;> simp_all

/-- `invalidate_existing_pending_otps` keeps the id column intact. -/
theorem invalidate_id_col (phone : String) (otps : List PendingOTP) :
    ((invalidate_existing_pending_otps phone otps).2).map (·.id) =
      otps.map (·.id) :=
  map_id_col fun x _ => by split <;> simp_all

/-- One `send_otp` call preserves both invariants. -/
theorem send_otp_preserves (sha : String → String) (salt : String)
    (now ttl maxAttempts : Nat) (debugMode : Bool)
    (phone otp : String) (sms : SmsBehavior) (s : OtpState)
    (hinv : OtpInvariant s) (hids : OtpIdsOk s) :
    OtpInvariant (send_otp sha salt now ttl maxAttempts debugMode phone otp sms s).2 ∧
      OtpIdsOk (send_otp sha salt now ttl maxAttempts debugMode phone otp sms s).2 := by
  obtain ⟨hnd, hbound⟩ := hids
  -- invariants for the post-invalidation state s1
  have hinv1 : ∀ now' p,
      (((invalidate_existing_pending_otps phone s.otps).2).filter
        (isActiveOtp now' p)).length ≤ 1 := by
    intro now' p
    exact le_trans
      (length_filter_map_le _ _ _ fun x _ => invalidate_pointwise phone now' p x)
      (hinv now' p)
  have hid1 : ((invalidate_existing_pending_otps phone s.otps).2).map (·.id) =
      s.otps.map (·.id) := invalidate_id_col phone s.otps
  have hnil1 : ∀ now',
      ((invalidate_existing_pending_otps phone s.otps).2).filter
        (isActiveOtp now' phone) = [] := by
    intro now'
    rw [List.filter_eq_nil_iff]
    intro a ha
    simp [not_active_after_invalidate phone now' s.otps a ha]
  -- invariants for the state s2 after appending the fresh row
  have hbound1 : ∀ r ∈ (invalidate_existing_pending_otps phone s.otps).2,
      r.id < s.nextId := by
    intro r hr
    have : r.id ∈ s.otps.map (·.id) := by
      rw [← hid1]
      exact List.mem_map_of_mem _ hr
    obtain ⟨x, hx, hxid⟩ := List.mem_map.mp this
    exact hxid ▸ hbound x hx
  -- invert create_pending_otp on its success path
  -- invert create_pending_otp on its success path
  have hcreate : ∀ row s2,
      create_pending_otp sha salt now ttl maxAttempts phone otp
          { s with otps := (invalidate_existing_pending_otps phone s.otps).2 } =
        .ok (row, s2) →
      row = ({ id := s.nextId, phone_number := phone,
               hashed_otp := sha (salt ++ otp), status := OTPStatus.pending,
               attempts_left := (maxAttempts : Int), expires_at := now + ttl,
               created_at := now } : PendingOTP) ∧
      s2 = ({ otps := (invalidate_existing_pending_otps phone s.otps).2 ++
                [({ id := s.nextId, phone_number := phone,
                    hashed_otp := sha (salt ++ otp),
                    status := OTPStatus.pending,
                    attempts_left := (maxAttempts : Int),
                    expires_at := now + ttl,
                    created_at := now } : PendingOTP)],
              nextId := s.nextId + 1 } : OtpState) := by
    intro row s2 h
    by_cases hs : salt = ""
    · simp [create_pending_otp, hash_otp_value, hs] at h
    · simp only [create_pending_otp, hash_otp_value, if_neg hs,
        Except.ok.injEq, Prod.mk.injEq] at h
      exact ⟨h.1.symm, h.2.symm⟩
  unfold send_otp
  split
  · exact ⟨fun now' p => hinv1 now' p, by rw [hid1]; exact hnd,
      fun r hr => hbound1 r hr⟩
  · next row s2 heq =>
    obtain ⟨hrow, hs2⟩ := hcreate row s2 heq
    subst hrow
    subst hs2
    -- facts about the state after the insert
    have hrowinv : ∀ now' p,
        (((invalidate_existing_pending_otps phone s.otps).2 ++
            [({ id := s.nextId, phone_number := phone,
                hashed_otp := sha (salt ++ otp), status := OTPStatus.pending,
                attempts_left := (maxAttempts : Int), expires_at := now + ttl,
                created_at := now } : PendingOTP)]).filter
          (isActiveOtp now' p)).length ≤ 1 := by
      intro now' p
      rw [List.filter_append]
      by_cases hp : p = phone
      · subst hp
        rw [hnil1 now']
        simpa using List.length_filter_le _ _
      · have hsing : (List.filter (isActiveOtp now' p)
            [({ id := s.nextId, phone_number := phone,
                hashed_otp := sha (salt ++ otp), status := OTPStatus.pending,
                attempts_left := (maxAttempts : Int), expires_at := now + ttl,
                created_at := now } : PendingOTP)]) = [] := by
          rw [List.filter_eq_nil_iff]
          intro a ha
          simp only [List.mem_singleton] at ha
          subst ha
          simp [isActiveOtp, Ne.symm hp]
        rw [hsing]
        simpa using hinv1 now' p
    have hnodup2 : (((invalidate_existing_pending_otps phone s.otps).2 ++
        [({ id := s.nextId, phone_number := phone,
            hashed_otp := sha (salt ++ otp), status := OTPStatus.pending,
            attempts_left := (maxAttempts : Int), expires_at := now + ttl,
            created_at := now } : PendingOTP)]).map (·.id)).Nodup := by
      rw [List.map_append, List.map_singleton, List.nodup_append]
      refine ⟨by rw [hid1]; exact hnd, List.nodup_singleton _, ?_⟩
      intro a ha hb
      simp only [List.mem_singleton] at hb
      subst hb
      rw [hid1] at ha
      obtain ⟨x, hx, hxid⟩ := List.mem_map.mp ha
      have := hbound x hx
      omega
    have hbound2 : ∀ r ∈ (invalidate_existing_pending_otps phone s.otps).2 ++
        [({ id := s.nextId, phone_number := phone,
            hashed_otp := sha (salt ++ otp), status := OTPStatus.pending,
            attempts_left := (maxAttempts : Int), expires_at := now + ttl,
            created_at := now } : PendingOTP)], r.id < s.nextId + 1 := by
      intro r hr
      rcases List.mem_append.mp hr with h | h
      · exact Nat.lt_succ_of_lt (hbound1 r h)
      · simp only [List.mem_singleton] at h
        subst h
        exact Nat.lt_succ_self _
    have hseterr :
        OtpInvariant
          { otps := (set_otp_sending_error s.nextId
              ((invalidate_existing_pending_otps phone s.otps).2 ++
                [({ id := s.nextId, phone_number := phone,
                    hashed_otp := sha (salt ++ otp),
                    status := OTPStatus.pending,
                    attempts_left := (maxAttempts : Int),
                    expires_at := now + ttl,
                    created_at := now } : PendingOTP)])),
            nextId := s.nextId + 1 } ∧
        OtpIdsOk
          { otps := (set_otp_sending_error s.nextId
              ((invalidate_existing_pending_otps phone s.otps).2 ++
                [({ id := s.nextId, phone_number := phone,
                    hashed_otp := sha (salt ++ otp),
                    status := OTPStatus.pending,
                    attempts_left := (maxAttempts : Int),
                    expires_at := now + ttl,
                    created_at := now } : PendingOTP)])),
            nextId := s.nextId + 1 } := by
      refine ⟨fun now' p => le_trans (set_sending_error_filter_le _ _ now' p)
        (hrowinv now' p), ?_, ?_⟩
      · rw [set_sending_error_id_col]
        exact hnodup2
      · intro r hr
        have : r.id ∈ ((invalidate_existing_pending_otps phone s.otps).2 ++
            [({ id := s.nextId, phone_number := phone,
                hashed_otp := sha (salt ++ otp), status := OTPStatus.pending,
                attempts_left := (maxAttempts : Int), expires_at := now + ttl,
                created_at := now } : PendingOTP)]).map (·.id) := by
          rw [← set_sending_error_id_col s.nextId]
          exact List.mem_map_of_mem _ hr
        obtain ⟨x, hx, hxid⟩ := List.mem_map.mp this
        exact hxid ▸ hbound2 x hx
    split
    · exact ⟨hrowinv, hnodup2, hbound2⟩
    · cases sms
      · exact hseterr
      · exact hseterr
      · exact ⟨hrowinv, hnodup2, hbound2⟩


/-- Id-column equality transports the primary-key bound. -/
theorem bound_of_id_col {l l' : List PendingOTP} {n : Nat}
    (h : l'.map (·.id) = l.map (·.id)) (hb : ∀ r ∈ l, r.id < n) :
    ∀ r ∈ l', r.id < n := by
  intro r hr
  have : r.id ∈ l.map (·.id) := by
    rw [← h]
    exact List.mem_map_of_mem _ hr
  obtain ⟨x, hx, hxid⟩ := List.mem_map.mp this
  exact hxid ▸ hb x hx

/-- One `verify_and_consume_otp` call preserves both invariants. -/
theorem verify_preserves (sha : String → String) (salt : String)
    (now : Nat) (phone code : String) (s : OtpState)
    (hinv : OtpInvariant s) (hids : OtpIdsOk s) :
    OtpInvariant { s with
        otps := (verify_and_consume_otp sha salt now phone code s.otps).2 } ∧
      OtpIdsOk { s with
        otps := (verify_and_consume_otp sha salt now phone code s.otps).2 } := by
  refine ⟨fun now' p => le_trans
    (verify_filter_le sha salt now phone code s.otps hids.1 now' p)
    (hinv now' p), ?_, ?_⟩
  · rw [verify_id_col]
    exact hids.1
  · exact bound_of_id_col (verify_id_col sha salt now phone code s.otps) hids.2

/-- Every single operation preserves both invariants. -/
theorem applyOp_preserves (sha : String → String) (salt : String)
    (s : OtpState) (op : AuthOp) (hinv : OtpInvariant s) (hids : OtpIdsOk s) :
    OtpInvariant (applyOp sha salt s op) ∧ OtpIdsOk (applyOp sha salt s op) := by
  cases op with
  | send now ttl maxAttempts debugMode phone otp sms =>
    exact send_otp_preserves sha salt now ttl maxAttempts debugMode phone otp
      sms s hinv hids
  | verify now phone code =>
    exact verify_preserves sha salt now phone code s hinv hids

/-- C1, main induction: any operation sequence preserves both invariants. -/
theorem applyOps_preserves (sha : String → String) (salt : String)
    (ops : List AuthOp) (s : OtpState)
    (hinv : OtpInvariant s) (hids : OtpIdsOk s) :
    OtpInvariant (applyOps sha salt ops s) ∧ OtpIdsOk (applyOps sha salt ops s) := by
  induction ops generalizing s with
  | nil => exact ⟨hinv, hids⟩
  | cons op rest ih =>
    obtain ⟨h1, h2⟩ := applyOp_preserves sha salt s op hinv hids
    exact ih (applyOp sha salt s op) h1 h2


/-! ## Claim theorems -/

/-- C1: for every phone number, after any sequence of `send_otp` and
`verify_and_consume_otp` operations starting from a state satisfying the
invariant (and with distinct primary keys), at most one PendingOTP row is
active (PENDING, unexpired, attempts_left > 0) per phone at any instant:
`send_otp` first marks every PENDING row of the phone EXPIRED with
`attempts_left = 0` before inserting the new row, and every
`verify_and_consume_otp` branch either moves the active row to a terminal
status or decrements `attempts_left`. -/
theorem C1_at_most_one_active_otp (sha : String → String) (salt : String)
    (ops : List AuthOp) (s : OtpState)
    (hinv : OtpInvariant s) (hids : OtpIdsOk s) :
    OtpInvariant (applyOps sha salt ops s) :=
  (applyOps_preserves sha salt ops s hinv hids).1

/-- C1 witness: two sends and a verify from the empty store leave at most
one active row for the phone. -/
theorem C1_at_most_one_active_otp_witness :
    (((applyOps (fun x => x) "s"
        [AuthOp.send 0 300 3 false "+15551234567" "111111" SmsBehavior.returnsTrue,
         AuthOp.send 5 300 3 false "+15551234567" "222222" SmsBehavior.returnsTrue,
         AuthOp.verify 10 "+15551234567" "000000"]
        { otps := [], nextId := 0 }).otps.filter
      (isActiveOtp 10 "+15551234567")).length) ≤ 1 :=
  C1_at_most_one_active_otp (fun x => x) "s" _ { otps := [], nextId := 0 }
    (fun _ _ => by simp) ⟨by simp, by simp⟩ 10 "+15551234567"

/-- C2: when the refresh token decodes under the refresh secret with `sub`
and `jti` present and an integer `sub`, but no active UserSession matches
`(jti, user_id)`, `refresh_access_token` fails with HTTP 401
(session not found or revoked) and leaves the session store unchanged —
no token is minted and no session is created. -/
theorem C2_refresh_no_active_session_401 (pyInt : String → Option Int)
    (rotate : Bool) (now ttl : Nat) (claims : JwtClaims)
    (subStr jti refreshStr aTok rTok nJti : String) (uid : Int)
    (ua ip : Option String) (users : List AppUser) (st : SessionState)
    (hsub : claims.sub = some subStr) (hjti : claims.jti = some jti)
    (hparse : pyInt subStr = some uid)
    (hsess : get_active_session_by_jti_and_user now jti uid st.sessions = .ok none) :
    refresh_access_token pyInt rotate now ttl (.ok claims) refreshStr
        aTok rTok nJti ua ip users st
      = (.httpError 401 .sessionNotFoundOrRevoked, st) := by
  cases claims
  cases hsub
  cases hjti
  simp [refresh_access_token, hparse, hsess]

/-- C2 witness: a structurally valid refresh token over an empty session
store is rejected with 401. -/
theorem C2_refresh_no_active_session_401_witness :
    refresh_access_token (fun _ => some 1) true 10 5
        (.ok { sub := some "1", jti := some "j", exp := none })
        "rt" "at" "nrt" "k" none none [] { sessions := [], nextId := 0 }
      = (.httpError 401 .sessionNotFoundOrRevoked,
         { sessions := [], nextId := 0 }) :=
  C2_refresh_no_active_session_401 (fun _ => some 1) true 10 5
    { sub := some "1", jti := some "j", exp := none } "1" "j" "rt" "at" "nrt"
    "k" 1 none none [] { sessions := [], nextId := 0 } rfl rfl rfl rfl

/-- C4: with a fresh active PENDING row and the matching code,
`verify_and_consume_otp` marks the row VERIFIED with `attempts_left = 0`,
persists the change, and returns success with the record; a later call
with the same code fails with the no-active-OTP reason because the
VERIFIED row no longer satisfies the active lookup. -/
theorem C4_verify_correct_code_consumes (sha : String → String)
    (salt : String) (now now2 : Nat) (phone code : String)
    (otps : List PendingOTP) (r : PendingOTP)
    (hget : get_active_pending_otp_by_phone now phone otps = .ok (some r))
    (hmatch : verify_otp_value sha salt code r.hashed_otp = true)
    (hfresh : now < r.expires_at)
    (hle : now ≤ now2) :
    (verify_and_consume_otp sha salt now phone code otps).1 =
      .ok true (some { r with status := OTPStatus.verified, attempts_left := 0 })
        RepoMsg.successfullyVerified
  ∧ (verify_and_consume_otp sha salt now phone code otps).2 =
      updateOtpById otps r.id
        { r with status := OTPStatus.verified, attempts_left := 0 }
  ∧ (verify_and_consume_otp sha salt now2 phone code
        (verify_and_consume_otp sha salt now phone code otps).2).1 =
      .ok false none RepoMsg.verifyNoActive := by
  have hexp : ¬ (r.expires_at ≤ now) := not_le.mpr hfresh
  have hfirst :
      verify_and_consume_otp sha salt now phone code otps =
        (.ok true (some { r with status := OTPStatus.verified, attempts_left := 0 })
          RepoMsg.successfullyVerified,
         updateOtpById otps r.id
          { r with status := OTPStatus.verified, attempts_left := 0 }) := by
    simp [verify_and_consume_otp, hget, hexp, hmatch]
  have hr : otps.filter (isActiveOtp now phone) = [r] := by
    simpa [get_active_pending_otp_by_phone,
      scalar_one_or_none_eq_ok_some] using hget
  have hnil :
      (updateOtpById otps r.id
        { r with status := OTPStatus.verified, attempts_left := 0 }).filter
        (isActiveOtp now2 phone) = [] := by
    rw [List.filter_eq_nil_iff]
    intro a ha
    simp only [updateOtpById, List.mem_map] at ha
    obtain ⟨x, hx, hxa⟩ := ha
    subst hxa
    by_cases hid : x.id = r.id
    · rw [if_pos hid]
      simp [isActiveOtp]
    · rw [if_neg hid]
      intro hact
      have hxnow : isActiveOtp now phone x = true := by
        rw [isActiveOtp_iff] at hact ⊢
        exact ⟨hact.1, hact.2.1, lt_of_le_of_lt hle hact.2.2.1, hact.2.2.2⟩
      have hxmem : x ∈ otps.filter (isActiveOtp now phone) :=
        List.mem_filter.mpr ⟨hx, hxnow⟩
      rw [hr, List.mem_singleton] at hxmem
      exact hid (by rw [hxmem])
  refine ⟨by rw [hfirst], by rw [hfirst], ?_⟩
  rw [hfirst]
  simp [verify_and_consume_otp, get_active_pending_otp_by_phone, hnil,
    scalar_one_or_none]

/-- C4 witness: a concrete fresh PENDING row consumed by its code, then
rejected on the replayed code. -/
theorem C4_verify_correct_code_consumes_witness :
    (verify_and_consume_otp (fun x => x) "s" 10 "p" "123456"
        [{ id := 1, phone_number := "p", hashed_otp := "s123456",
           status := OTPStatus.pending, attempts_left := 3,
           expires_at := 100, created_at := 0 }]).1 =
      .ok true
        (some { id := 1, phone_number := "p", hashed_otp := "s123456",
                status := OTPStatus.verified, attempts_left := 0,
                expires_at := 100, created_at := 0 })
        RepoMsg.successfullyVerified
  ∧ (verify_and_consume_otp (fun x => x) "s" 10 "p" "123456"
        [{ id := 1, phone_number := "p", hashed_otp := "s123456",
           status := OTPStatus.pending, attempts_left := 3,
           expires_at := 100, created_at := 0 }]).2 =
      updateOtpById
        [{ id := 1, phone_number := "p", hashed_otp := "s123456",
           status := OTPStatus.pending, attempts_left := 3,
           expires_at := 100, created_at := 0 }] 1
        { id := 1, phone_number := "p", hashed_otp := "s123456",
          status := OTPStatus.verified, attempts_left := 0,
          expires_at := 100, created_at := 0 }
  ∧ (verify_and_consume_otp (fun x => x) "s" 50 "p" "123456"
        ((verify_and_consume_otp (fun x => x) "s" 10 "p" "123456"
          [{ id := 1, phone_number := "p", hashed_otp := "s123456",
             status := OTPStatus.pending, attempts_left := 3,
             expires_at := 100, created_at := 0 }]).2)).1 =
      .ok false none RepoMsg.verifyNoActive :=
  C4_verify_correct_code_consumes (fun x => x) "s" 10 50 "p" "123456"
    [{ id := 1, phone_number := "p", hashed_otp := "s123456",
       status := OTPStatus.pending, attempts_left := 3,
       expires_at := 100, created_at := 0 }]
    { id := 1, phone_number := "p", hashed_otp := "s123456",
      status := OTPStatus.pending, attempts_left := 3,
      expires_at := 100, created_at := 0 }
    rfl rfl (by decide) (by decide)

/-- C5 (code-bug evaluation): a wrong code against a fresh active PENDING
row commits the decrement (and, once attempts run out, the MAX_ATTEMPTS
status) but then raises `NameError` from the commit callback — the caller
never receives the `(False, None, reason)` failure tuple the spec
describes. -/
theorem C5_wrong_code_raises_nameerror :
    verify_and_consume_otp (fun x => x) "s" 10 "p" "000000"
        [{ id := 1, phone_number := "p", hashed_otp := "s123456",
           status := OTPStatus.pending, attempts_left := 3,
           expires_at := 100, created_at := 0 }] =
      (.raised .nameErrorSuccess,
       [{ id := 1, phone_number := "p", hashed_otp := "s123456",
          status := OTPStatus.pending, attempts_left := 2,
          expires_at := 100, created_at := 0 }])
  ∧ verify_and_consume_otp (fun x => x) "s" 10 "p" "000000"
        [{ id := 1, phone_number := "p", hashed_otp := "s123456",
           status := OTPStatus.pending, attempts_left := 1,
           expires_at := 100, created_at := 0 }] =
      (.raised .nameErrorSuccess,
       [{ id := 1, phone_number := "p", hashed_otp := "s123456",
          status := OTPStatus.max_attempts, attempts_left := 0,
          expires_at := 100, created_at := 0 }]) :=
  ⟨rfl, rfl⟩

/-- C6: a logout whose refresh token decodes with `jti` and `sub` present
(truthy, i.e. non-empty — line 465 treats an empty string like a missing
claim) but whose integer `sub` differs from the authenticated caller
fails with HTTP 403 and leaves the session store untouched. -/
theorem C6_logout_mismatched_user_403 (pyInt : String → Option Int)
    (now : Nat) (current_user_id uid : Int) (claims : JwtClaims)
    (jti subStr : String) (st : SessionState)
    (hjti : claims.jti = some jti) (hjx : jti ≠ "")
    (hsub : claims.sub = some subStr) (hsx : subStr ≠ "")
    (hparse : pyInt subStr = some uid)
    (hne : current_user_id ≠ uid) :
    logout_user pyInt now current_user_id (.ok claims) st
      = (.httpError 403 .logoutForbiddenOtherUser, st) := by
  cases claims
  cases hjti
  cases hsub
  simp [logout_user, hjx, hsx, hparse, hne]

/-- C6 witness: caller 2 logging out a token of user 1 gets 403 over an
untouched store. -/
theorem C6_logout_mismatched_user_403_witness :
    logout_user (fun _ => some 1) 10 2
        (.ok { sub := some "1", jti := some "j", exp := none })
        { sessions := [], nextId := 0 }
      = (.httpError 403 .logoutForbiddenOtherUser,
         { sessions := [], nextId := 0 }) :=
  C6_logout_mismatched_user_403 (fun _ => some 1) 10 2 1
    { sub := some "1", jti := some "j", exp := none } "j" "1"
    { sessions := [], nextId := 0 } rfl (by decide) rfl (by decide) rfl
    (by decide)

/-- C8 counterexample: a store exception from
`invalidate_existing_pending_otps` — called on line 53 of `send_otp`
outside every `try` block — propagates uncaught out of the orchestrator
instead of being translated to an HTTP-shaped outcome. -/
theorem C8_counterexample_invalidate_uncaught :
    send_otp_outcome (.error (.ioFailure 7)) (.ok 1) false (.ok true) (.ok ())
      = .uncaught (.ioFailure 7) := rfl

/-- C8 amended: inside `send_otp`, failures of `create_pending_otp` are
caught and translated to HTTP 500; an SMS transport exception is
translated to HTTP 503 and an unsuccessful send to HTTP 500 provided the
`set_otp_sending_error` bookkeeping call in the handler succeeds — if that
call itself raises, its exception escapes uncaught, as does a failure of
the `invalidate_existing_pending_otps` call, which runs outside every
`try` block. -/
theorem C8_amended_send_otp_translation (e e2 : StoreErr) (n m : Nat)
    (debugMode : Bool) (sms : Except StoreErr Bool)
    (setErr : Except StoreErr Unit) (create : Except StoreErr Nat) :
    send_otp_outcome (.ok n) (.error e) debugMode sms setErr = .httpError 500
  ∧ send_otp_outcome (.ok n) (.ok m) false (.error e) (.ok ()) = .httpError 503
  ∧ send_otp_outcome (.ok n) (.ok m) false (.ok false) (.ok ()) = .httpError 500
  ∧ send_otp_outcome (.ok n) (.ok m) false (.error e) (.error e2) =
      .uncaught e2
  ∧ send_otp_outcome (.ok n) (.ok m) false (.ok false) (.error e2) =
      .uncaught e2
  ∧ send_otp_outcome (.error e) create debugMode sms setErr = .uncaught e :=
  ⟨rfl, rfl, rfl, rfl, rfl, rfl⟩

/-- C8 amended, witness instance at concrete store results. -/
theorem C8_amended_send_otp_translation_witness :
    send_otp_outcome (.ok 1) (.error (.ioFailure 3)) false (.ok true) (.ok ())
        = .httpError 500
  ∧ send_otp_outcome (.ok 1) (.ok 2) false (.error (.ioFailure 3)) (.ok ())
        = .httpError 503
  ∧ send_otp_outcome (.ok 1) (.ok 2) false (.ok false) (.ok ()) = .httpError 500
  ∧ send_otp_outcome (.ok 1) (.ok 2) false (.error (.ioFailure 3))
        (.error (.ioFailure 4)) = .uncaught (.ioFailure 4)
  ∧ send_otp_outcome (.ok 1) (.ok 2) false (.ok false)
        (.error (.ioFailure 4)) = .uncaught (.ioFailure 4)
  ∧ send_otp_outcome (.error (.ioFailure 3)) (.ok 2) false (.ok true) (.ok ())
        = .uncaught (.ioFailure 3) :=
  C8_amended_send_otp_translation (.ioFailure 3) (.ioFailure 4) 1 2 false
    (.ok true) (.ok ()) (.ok 2)

/-- C9 counterexample: with two rows both satisfying the active predicate,
`get_active_pending_otp_by_phone` does not return a value — the underlying
`scalar_one_or_none` raises `MultipleResultsFound`. -/
theorem C9_counterexample_two_active_rows_raise :
    get_active_pending_otp_by_phone 10 "p"
        [{ id := 1, phone_number := "p", hashed_otp := "h1",
           status := OTPStatus.pending, attempts_left := 3,
           expires_at := 100, created_at := 0 },
         { id := 2, phone_number := "p", hashed_otp := "h2",
           status := OTPStatus.pending, attempts_left := 3,
           expires_at := 100, created_at := 5 }]
      = .error .multipleResultsFound := rfl

/-- C9 amended: `get_active_pending_otp_by_phone` returns `none` when no
row satisfies the active predicate, returns the row when exactly one does,
and raises `MultipleResultsFound` when two or more do (which the
maintained single-active invariant rules out in reachable states). -/
theorem C9_amended_get_active_spec (now : Nat) (phone : String)
    (otps : List PendingOTP) (r : PendingOTP) :
    (otps.filter (isActiveOtp now phone) = [] →
        get_active_pending_otp_by_phone now phone otps = .ok none)
  ∧ (otps.filter (isActiveOtp now phone) = [r] →
        get_active_pending_otp_by_phone now phone otps = .ok (some r))
  ∧ (2 ≤ (otps.filter (isActiveOtp now phone)).length →
        get_active_pending_otp_by_phone now phone otps =
          .error .multipleResultsFound) := by
  refine ⟨fun h => ?_, fun h => ?_, fun h => ?_⟩
  · simp [get_active_pending_otp_by_phone, h, scalar_one_or_none]
  · simp [get_active_pending_otp_by_phone, h, scalar_one_or_none]
  · rw [get_active_pending_otp_by_phone, scalar_one_or_none_eq_error]
    exact ⟨h, rfl⟩

/-- C9 amended, witness instance: empty store yields `none`. -/
theorem C9_amended_get_active_spec_witness :
    get_active_pending_otp_by_phone 10 "p" [] = .ok none :=
  (C9_amended_get_active_spec 10 "p" []
    { id := 0, phone_number := "", hashed_otp := "", status := OTPStatus.pending,
      attempts_left := 0, expires_at := 0, created_at := 0 }).1 rfl

/-- C10: with a non-empty salt, hashing then verifying the same OTP
succeeds, verifying any OTP whose salted digest differs fails, and
`hash_otp_value` returns the salted digest; `verify_otp_value` is total —
with an empty salt it returns `false` while `hash_otp_value` raises
`OTPConfigurationError`. -/
theorem C10_hash_verify_round_trip (sha : String → String)
    (salt otp otp2 stored h : String) (hsalt : salt ≠ "") :
    (hash_otp_value sha salt otp = .ok h →
        verify_otp_value sha salt otp h = true)
  ∧ (hash_otp_value sha salt otp = .ok h → sha (salt ++ otp2) ≠ h →
        verify_otp_value sha salt otp2 h = false)
  ∧ hash_otp_value sha salt otp = .ok (sha (salt ++ otp))
  ∧ verify_otp_value sha "" otp stored = false
  ∧ hash_otp_value sha "" otp = .error .saltNotConfigured := by
  refine ⟨fun hok => ?_, fun hok hne => ?_, ?_, ?_, ?_⟩
  · rw [hash_otp_value, if_neg hsalt] at hok
    simp only [Except.ok.injEq] at hok
    simp [verify_otp_value, hash_otp_value, hsalt, hok]
  · rw [hash_otp_value, if_neg hsalt] at hok
    simp only [Except.ok.injEq] at hok
    simp [verify_otp_value, hash_otp_value, hsalt, hok, hne]
  · simp [hash_otp_value, hsalt]
  · simp [verify_otp_value, hash_otp_value]
  · simp [hash_otp_value]

/-- C10 witness at a concrete salt, digest function and OTP pair. -/
theorem C10_hash_verify_round_trip_witness :
    verify_otp_value (fun x => x) "s" "123456" "s123456" = true
  ∧ verify_otp_value (fun x => x) "s" "000000" "s123456" = false
  ∧ hash_otp_value (fun x => x) "s" "123456" = .ok "s123456"
  ∧ verify_otp_value (fun x => x) "" "123456" "w" = false
  ∧ hash_otp_value (fun x => x) "" "123456" = .error .saltNotConfigured := by
  obtain ⟨h1, h2, h3, h4, h5⟩ :=
    C10_hash_verify_round_trip (fun x => x) "s" "123456" "000000" "w"
      "s123456" (by decide)
  exact ⟨h1 rfl, h2 rfl (by decide), h3, h4, h5⟩


/-- When at most one session row carries the JTI (the database enforces a
unique constraint on `refresh_token_jti`), `invalidate_session_by_jti`
does not raise. -/
theorem invalidate_session_by_jti_not_error (now : Nat) (jti : String)
    (sessions : List UserSession)
    (hlen : (sessions.filter (fun x => x.refresh_token_jti == jti)).length ≤ 1)
    (e : PyError) :
    (invalidate_session_by_jti now jti sessions).1 ≠ .error e := by
  unfold invalidate_session_by_jti
  cases hg : get_session_by_jti jti sessions with
  | error e2 =>
    have h2 := (scalar_one_or_none_eq_error.mp hg).1
    omega
  | ok o =>
    cases o with
    | none => simp
    | some s =>
      split
      · simp_all
      · simp_all
      · split <;> simp_all

/-- C7 counterexample: an already-expired refresh token (`exp = 0`,
decoded at `now = 100`; logout decodes with expiry verification off, so
the decode succeeds) whose `sub` (user 1) differs from the authenticated
caller (user 2) makes `logout_user` fail with HTTP 403 instead of
returning success. -/
theorem C7_counterexample_expired_foreign_token_403 :
    logout_user (fun _ => some 1) 100 2
        (.ok { sub := some "1", jti := some "j", exp := some 0 })
        { sessions := [], nextId := 0 }
      = (.httpError 403 .logoutForbiddenOtherUser,
         { sessions := [], nextId := 0 }) := rfl

/-- C7 amended: `logout_user` returns success with an untouched store on a
decode error, a missing or empty (falsy) `jti` or `sub`, or a non-integer
`sub`; and when the token's non-empty `sub` matches the caller — expired
or not, since expiry is not verified at logout — it returns success after
at most the best-effort invalidation of the session carrying the token's
`jti` (absence of such a session is not an error).  Only a `sub`
mismatching the caller escapes this fail-soft policy (HTTP 403, claim
C6). -/
theorem C7_amended_logout_fail_soft (pyInt : String → Option Int)
    (now : Nat) (current_user_id : Int) (st : SessionState) :
    (∀ e, logout_user pyInt now current_user_id (.error e) st = (.ok, st))
  ∧ (∀ claims : JwtClaims, claims.jti = none →
      logout_user pyInt now current_user_id (.ok claims) st = (.ok, st))
  ∧ (∀ claims : JwtClaims, ∀ jtiv, claims.jti = some jtiv →
      claims.sub = none →
      logout_user pyInt now current_user_id (.ok claims) st = (.ok, st))
  ∧ (∀ claims : JwtClaims, ∀ jtiv subStr, claims.jti = some jtiv →
      claims.sub = some subStr → (jtiv = "" ∨ subStr = "") →
      logout_user pyInt now current_user_id (.ok claims) st = (.ok, st))
  ∧ (∀ claims : JwtClaims, ∀ jtiv subStr, claims.jti = some jtiv →
      claims.sub = some subStr → jtiv ≠ "" → subStr ≠ "" →
      pyInt subStr = none →
      logout_user pyInt now current_user_id (.ok claims) st = (.ok, st))
  ∧ (∀ claims : JwtClaims, ∀ jtiv subStr, claims.jti = some jtiv →
      claims.sub = some subStr → jtiv ≠ "" → subStr ≠ "" →
      pyInt subStr = some current_user_id →
      (st.sessions.filter (fun x => x.refresh_token_jti == jtiv)).length ≤ 1 →
      logout_user pyInt now current_user_id (.ok claims) st =
        (.ok, { st with
          sessions := (invalidate_session_by_jti now jtiv st.sessions).2 })) := by
  refine ⟨fun e => rfl, ?_, ?_, ?_, ?_, ?_⟩
  · intro claims hjti
    cases claims
    cases hjti
    rfl
  · intro claims jtiv hjti hsub
    cases claims
    cases hjti
    cases hsub
    rfl
  · intro claims jtiv subStr hjti hsub hempty
    cases claims
    cases hjti
    cases hsub
    simp [logout_user, hempty]
  · intro claims jtiv subStr hjti hsub hjx hsx hparse
    cases claims
    cases hjti
    cases hsub
    simp [logout_user, hjx, hsx, hparse]
  · intro claims jtiv subStr hjti hsub hjx hsx hparse hlen
    cases claims
    cases hjti
    cases hsub
    rcases hcall : invalidate_session_by_jti now jtiv st.sessions with ⟨res, db2⟩
    cases res with
    | error e =>
      exact absurd (by rw [hcall])
        (invalidate_session_by_jti_not_error now jtiv st.sessions hlen e)
    | ok o =>
      simp [logout_user, hjx, hsx, hparse, hcall]

/-- C7 amended, witness instance: logging out with an undecodable token
over an empty store succeeds without touching anything. -/
theorem C7_amended_logout_fail_soft_witness :
    logout_user (fun _ => some 1) 10 1 (.error .decodeFailed)
        { sessions := [], nextId := 0 }
      = (.ok, { sessions := [], nextId := 0 }) :=
  (C7_amended_logout_fail_soft (fun _ => some 1) 10 1
    { sessions := [], nextId := 0 }).1 .decodeFailed


/-- C3: with rotation enabled, a successful `refresh_access_token` call
invalidates the old session strictly before creating the new one — its
session-store trace is `[initial, after-invalidate, after-create]`, and in
none of these states are the old session row and a `newJti` session both
usable at any instant; afterwards the old row is dead, the new session is
active, and replaying the same refresh token at any later instant fails
with HTTP 401.  Hypotheses: the decoded token carries the session's
`(jti, sub)`, the session and its active user exist, primary keys are
distinct and fresh, the freshly generated JTI is new (uuid4 plus the
unique constraint on `refresh_token_jti`), and the new session's TTL is
positive. -/
theorem C3_rotation_old_session_dies_first (pyInt : String → Option Int)
    (now now2 ttl : Nat) (claims : JwtClaims)
    (subStr jti refreshStr aTok rTok newJti : String) (uid : Int)
    (ua ip : Option String) (users : List AppUser) (st : SessionState)
    (sess : UserSession) (u : AppUser)
    (hnd : (st.sessions.map (·.id)).Nodup)
    (hbound : ∀ x ∈ st.sessions, x.id < st.nextId)
    (hsub : claims.sub = some subStr) (hjti : claims.jti = some jti)
    (hparse : pyInt subStr = some uid)
    (hsess : get_active_session_by_jti_and_user now jti uid st.sessions =
      .ok (some sess))
    (huser : users.find? (fun x => x.id == sess.user_id) = some u)
    (hact : u.is_active = true)
    (hjfresh : ∀ x ∈ st.sessions, x.refresh_token_jti ≠ newJti)
    (httl : 0 < ttl) (hle : now ≤ now2) :
    (refresh_access_token pyInt true now ttl (.ok claims) refreshStr
        aTok rTok newJti ua ip users st).1
      = .ok { access_token := aTok, refresh_token := rTok,
              is_new_user := !u.is_profile_complete }
  ∧ (refresh_access_token pyInt true now ttl (.ok claims) refreshStr
        aTok rTok newJti ua ip users st).2
      ∈ rotationStates now ttl newJti ua ip sess u st
  ∧ (∀ st' ∈ rotationStates now ttl newJti ua ip sess u st, ∀ t,
      ¬ (existsActiveSessionWithId t sess.id st' ∧
          existsActiveSessionWithJti t newJti st'))
  ∧ ¬ existsActiveSessionWithId now2
      sess.id (refresh_access_token pyInt true now ttl (.ok claims)
        refreshStr aTok rTok newJti ua ip users st).2
  ∧ existsActiveSessionWithJti now
      newJti (refresh_access_token pyInt true now ttl (.ok claims)
        refreshStr aTok rTok newJti ua ip users st).2
  ∧ (∀ aTok2 rTok2 newJti2 : String, ∀ ua2 ip2 : Option String,
      refresh_access_token pyInt true now2 ttl (.ok claims) refreshStr
          aTok2 rTok2 newJti2 ua2 ip2 users
          (refresh_access_token pyInt true now ttl (.ok claims) refreshStr
            aTok rTok newJti ua ip users st).2
        = (.httpError 401 .sessionNotFoundOrRevoked,
           (refresh_access_token pyInt true now ttl (.ok claims) refreshStr
             aTok rTok newJti ua ip users st).2)) := by
  -- facts about the located session row
  have hfil : st.sessions.filter (matchesActiveSession now jti uid) = [sess] := by
    simpa [get_active_session_by_jti_and_user,
      scalar_one_or_none_eq_ok_some] using hsess
  have hsessmem : sess ∈ st.sessions :=
    (List.mem_filter.mp (hfil ▸ List.mem_singleton_self sess)).1
  obtain ⟨hsjti, hsuid, hsact, hsexp⟩ := matchesActiveSession_iff.mp
    (List.mem_filter.mp (hfil ▸ List.mem_singleton_self sess)).2
  have hjne : jti ≠ newJti := hsjti ▸ hjfresh sess hsessmem
  obtain ⟨subv, jtiv, expv⟩ := claims
  cases hsub
  cases hjti
  -- the call reduces to the rotated store
  have hout : refresh_access_token pyInt true now ttl
      (.ok { sub := some subStr, jti := some jti, exp := expv }) refreshStr
      aTok rTok newJti ua ip users st
      = (.ok { access_token := aTok, refresh_token := rTok,
               is_new_user := !u.is_profile_complete },
         { sessions := updateSessionById st.sessions sess.id
             { sess with is_active := false, expires_at := now } ++
             [{ id := st.nextId, user_id := u.id, refresh_token_jti := newJti,
                is_active := true, user_agent := ua, ip_address := ip,
                expires_at := now + ttl, created_at := now }],
           nextId := st.nextId + 1 }) := by
    simp [refresh_access_token, hparse, hsess, huser, hact,
      invalidate_session, create_user_session]
  have hrot : rotationStates now ttl newJti ua ip sess u st =
      [st,
       { sessions := updateSessionById st.sessions sess.id
           { sess with is_active := false, expires_at := now },
         nextId := st.nextId },
       { sessions := updateSessionById st.sessions sess.id
           { sess with is_active := false, expires_at := now } ++
           [{ id := st.nextId, user_id := u.id, refresh_token_jti := newJti,
              is_active := true, user_agent := ua, ip_address := ip,
              expires_at := now + ttl, created_at := now }],
         nextId := st.nextId + 1 }] := rfl
  -- the replayed token matches nothing in the rotated store
  have hreplay : (updateSessionById st.sessions sess.id
      { sess with is_active := false, expires_at := now } ++
      [({ id := st.nextId, user_id := u.id, refresh_token_jti := newJti,
          is_active := true, user_agent := ua, ip_address := ip,
          expires_at := now + ttl, created_at := now } : UserSession)]).filter
      (matchesActiveSession now2 jti uid) = [] := by
    rw [List.filter_eq_nil_iff]
    intro a ha
    rcases List.mem_append.mp ha with h | h
    · simp only [updateSessionById, List.mem_map] at h
      obtain ⟨x0, hx0, hxa⟩ := h
      subst hxa
      by_cases hid : x0.id = sess.id
      · rw [if_pos hid]
        simp [matchesActiveSession]
      · rw [if_neg hid]
        intro hmm
        have hx0now : matchesActiveSession now jti uid x0 = true := by
          rw [matchesActiveSession_iff] at hmm ⊢
          exact ⟨hmm.1, hmm.2.1, hmm.2.2.1, lt_of_le_of_lt hle hmm.2.2.2⟩
        have hx0mem : x0 ∈ st.sessions.filter (matchesActiveSession now jti uid) :=
          List.mem_filter.mpr ⟨hx0, hx0now⟩
        rw [hfil, List.mem_singleton] at hx0mem
        exact hid (by rw [hx0mem])
    · simp only [List.mem_singleton] at h
      subst h
      simp [matchesActiveSession, Ne.symm hjne]
  refine ⟨by rw [hout], by rw [hout, hrot]; simp, ?_, ?_, ?_, ?_⟩
  · -- in no trace state are the old and the new session both active
    intro st' hmem t hcontra
    obtain ⟨⟨x, hx, hxid, hxact⟩, ⟨y, hy, hyjti, hyact⟩⟩ := hcontra
    rw [hrot] at hmem
    simp only [List.mem_cons, List.not_mem_nil, or_false] at hmem
    rcases hmem with h | h | h
    · subst h
      exact hjfresh y hy hyjti
    · subst h
      simp only [updateSessionById, List.mem_map] at hy
      obtain ⟨y0, hy0, hya⟩ := hy
      subst hya
      by_cases hid : y0.id = sess.id
      · rw [if_pos hid] at hyjti
        exact hjne (hsjti.symm.trans hyjti)
      · rw [if_neg hid] at hyjti
        exact hjfresh y0 hy0 hyjti
    · subst h
      rcases List.mem_append.mp hx with h | h
      · simp only [updateSessionById, List.mem_map] at h
        obtain ⟨x0, hx0, hxa⟩ := h
        subst hxa
        by_cases hid : x0.id = sess.id
        · rw [if_pos hid] at hxact
          simp [sessionActiveAt] at hxact
        · rw [if_neg hid] at hxid
          exact hid hxid
      · simp only [List.mem_singleton] at h
        subst h
        simp only at hxid
        have := hbound sess hsessmem
        omega
  · -- the old session row is dead in the final store
    rw [hout]
    rintro ⟨x, hx, hxid, hxact⟩
    rcases List.mem_append.mp hx with h | h
    · simp only [updateSessionById, List.mem_map] at h
      obtain ⟨x0, hx0, hxa⟩ := h
      subst hxa
      by_cases hid : x0.id = sess.id
      · rw [if_pos hid] at hxact
        simp [sessionActiveAt] at hxact
      · rw [if_neg hid] at hxid
        exact hid hxid
    · simp only [List.mem_singleton] at h
      subst h
      simp only at hxid
      have := hbound sess hsessmem
      omega
  · -- the new session is active in the final store
    rw [hout]
    refine ⟨({ id := st.nextId, user_id := u.id, refresh_token_jti := newJti,
               is_active := true, user_agent := ua, ip_address := ip,
               expires_at := now + ttl, created_at := now } : UserSession),
      List.mem_append.mpr (Or.inr (List.mem_singleton_self _)), rfl, ?_⟩
    simp [sessionActiveAt]
    omega
  · -- replaying the rotated-away token fails with 401
    intro aTok2 rTok2 newJti2 ua2 ip2
    rw [hout]
    simp [refresh_access_token, hparse, get_active_session_by_jti_and_user,
      hreplay, scalar_one_or_none]

/-- C3 witness: one active session, one user, rotation at `now = 10`;
the refresh succeeds and the replay at `now2 = 20` yields 401. -/
theorem C3_rotation_old_session_dies_first_witness :
    (refresh_access_token (fun _ => some 7) true 10 30
        (.ok { sub := some "7", jti := some "j", exp := none }) "rt"
        "at" "nrt" "k" none none
        [{ id := 7, phone_number := "p", is_active := true,
           is_profile_complete := true }]
        { sessions :=
            [{ id := 1, user_id := 7, refresh_token_jti := "j",
               is_active := true, user_agent := none, ip_address := none,
               expires_at := 100, created_at := 0 }],
          nextId := 2 }).1
      = .ok { access_token := "at", refresh_token := "nrt",
              is_new_user := !true } :=
  (C3_rotation_old_session_dies_first (fun _ => some 7) 10 20 30
    { sub := some "7", jti := some "j", exp := none } "7" "j" "rt" "at" "nrt"
    "k" 7 none none
    [{ id := 7, phone_number := "p", is_active := true,
       is_profile_complete := true }]
    { sessions :=
        [{ id := 1, user_id := 7, refresh_token_jti := "j",
           is_active := true, user_agent := none, ip_address := none,
           expires_at := 100, created_at := 0 }],
      nextId := 2 }
    { id := 1, user_id := 7, refresh_token_jti := "j", is_active := true,
      user_agent := none, ip_address := none, expires_at := 100,
      created_at := 0 }
    { id := 7, phone_number := "p", is_active := true,
      is_profile_complete := true }
    (by simp) (by decide) rfl rfl rfl rfl rfl rfl (by decide) (by decide)
    (by decide)).1

end Campfire
